import Mathlib

/-!
Verification development for the visit/field allocation subsystem of the
`ics_utils` repository (`python/ics/utils/visit/`): `pfsVisit.py`,
`pfsField.py` and `visitManager.py`.

The Python classes are shallowly embedded as Lean structures and pure
functions.  Machine integers are modelled as `Nat` (Python integers are
unbounded).  Exceptions are modelled with `Except`.  External collaborators
(the opdb database, the PfsDesign/PfsConfig data model, the Gen2 sequencer,
the persisted key/value store) are modelled as explicit data threaded
through an `Env`/state record.
-/

namespace IcsVisit

/-- The three consumer roles that can own a Visit inside a PfsField
(`pfsVisit.py`: subclasses `AgVisit`, `FpsVisit`, `SpsVisit`; the caller
strings `agc` and `mcs` are aliases of `ag` and `fps` in
`Visit.fromCaller`). -/
inductive Role
  | ag
  | fps
  | sps
deriving DecidableEq, Repr

/-- Modelled from the spec: the exception classes of module
`ics.utils.visit.exception` (the module itself is not part of the source
tree; only its two constructors `VisitAlreadyDone` and `VisitOverflowed`
are raised, from `Visit.nextFrameId`). -/
inductive VisitError
  | visitAlreadyDone
  | visitOverflowed
deriving DecidableEq, Repr

/-- Python-level errors raised by `pfsField.py` / `visitManager.py`.
Each constructor stands for one concrete `raise` site; the Python message
strings are recorded as tags. -/
inductive PyError
  /-- Python `AttributeError`: attribute lookup failed on an object (used for the
  `activeField.holdPfsConfig0(...)` call in `VisitManager.declareNewField`:
  class `PfsField` defines `setPfsConfig0` but no `holdPfsConfig0`). -/
  | attributeError (attr : String)
  /-- Python `RuntimeError('no pfsConfig0 found for the current PfsDesign (...)')`
  in `PfsField.makePfsConfig`. -/
  | noPfsConfig0
  /-- Python `RuntimeError('pfsConfig0 (...) does not match the current PfsDesign (...)')`
  in `PfsField.makePfsConfig`. -/
  | designMismatch
  /-- Python `RuntimeError('Cannot create pfsConfig: CONVERGENCE_FAILED bit is set ...')`
  in `PfsField.makePfsConfig`. -/
  | convergenceFailed
  /-- Python `FileNotFoundError('pfsConfig0 not found for designId=... visit0=...')`
  in `PfsField.loadPfsConfig0`. -/
  | pfsConfig0NotFound
  /-- Python `ValueError('no pfsConfig0 is available.')` in `PfsField.getVisit0`. -/
  | noPfsConfig0Available
deriving DecidableEq, Repr

/-- Embedding of class `Visit` (`pfsVisit.py`).  The `role` field records
which subclass the object is an instance of (the Python `caller` string of
the three subclasses coincides with the role name).  `frameId` is the
private `__frameId` counter; `idLock` is a per-object mutex guarding only
`nextFrameId`, which in this single-threaded embedding needs no
representation. -/
structure Visit where
  role : Role
  visitId : Nat
  name : Option String
  isActive : Bool
  iAmDead : Bool
  frameId : Nat
deriving DecidableEq, Repr

/-- Constructor `AgVisit(visitId, name=None)`: a fresh, unlocked, live ag
visit with frame counter 0. -/
def AgVisit (visitId : Nat) (name : Option String) : Visit :=
  { role := Role.ag, visitId := visitId, name := name,
    isActive := false, iAmDead := false, frameId := 0 }

/-- Constructor `FpsVisit(visitId, name=None)`. -/
def FpsVisit (visitId : Nat) (name : Option String) : Visit :=
  { role := Role.fps, visitId := visitId, name := name,
    isActive := false, iAmDead := false, frameId := 0 }

/-- Constructor `SpsVisit(visitId, name=None)`. -/
def SpsVisit (visitId : Nat) (name : Option String) : Visit :=
  { role := Role.sps, visitId := visitId, name := name,
    isActive := false, iAmDead := false, frameId := 0 }

/-- Static method `Visit.fromCaller(visitId, caller, name)`: dispatch on the caller name
(`sps` to `SpsVisit`, `mcs`/`fps` to `FpsVisit`, `ag`/`agc` to `AgVisit`;
the alias strings are collapsed into `Role`, making the dispatch total, so
the `ValueError` branch for unknown callers disappears). -/
def Visit.fromCaller (visitId : Nat) (caller : Role) (name : Option String) : Visit :=
  match caller with
  | Role.sps => SpsVisit visitId name
  | Role.fps => FpsVisit visitId name
  | Role.ag => AgVisit visitId name

/-- Method `Visit.nextFrameId()`: fail with `VisitAlreadyDone` if dead; otherwise
read the counter, fail with `VisitOverflowed` if it has reached 100, else
increment it and return `visitId*100 + preIncrementValue` together with the
updated visit. -/
def Visit.nextFrameId (v : Visit) : Except VisitError (Nat × Visit) :=
  if v.iAmDead then Except.error VisitError.visitAlreadyDone
  else if v.frameId ≥ 100 then Except.error VisitError.visitOverflowed
  else Except.ok (v.visitId * 100 + v.frameId, { v with frameId := v.frameId + 1 })

/-- Method `Visit.lock()`: declare the visit active. -/
def Visit.lock (v : Visit) : Visit := { v with isActive := true }

/-- Method `Visit.unlock()`: declare the visit inactive. -/
def Visit.unlock (v : Visit) : Visit := { v with isActive := false }

/-- Method `Visit.stop()`: declare that the visit should not be used anymore. -/
def Visit.stop (v : Visit) : Visit := { v with iAmDead := true }

/-- Modelled from the spec: the external opdb database consulted by the
availability predicates (`OpDB().query_scalar(...)` from the external
`pfs.utils.database.opdb` collaborator).  Each field holds the set of key
values present in the corresponding table/column: `pfs_visit_id` rows of
the three per-role exposure tables, and `visit0` values of `pfs_config`. -/
structure OpDB where
  agcExposure : List Nat
  mcsExposure : List Nat
  spsVisit : List Nat
  pfsConfigVisit0 : List Nat
deriving DecidableEq, Repr

/-- The class attribute `exposureTable` of the three `Visit` subclasses:
`agc_exposure` for ag, `mcs_exposure` for fps, `sps_visit` for sps.  Here
it selects the corresponding row set of the database model. -/
def OpDB.exposureRows (db : OpDB) (r : Role) : List Nat :=
  match r with
  | Role.ag => db.agcExposure
  | Role.fps => db.mcsExposure
  | Role.sps => db.spsVisit

/-- Property `Visit.isPopulated`: does an exposure row with
`pfs_visit_id = visitId` exist in the subclass's `exposureTable`. -/
def Visit.isPopulated (v : Visit) (db : OpDB) : Bool :=
  (db.exposureRows v.role).contains v.visitId

/-- Property `FpsVisit.isPfsConfig0Populated`: does a `pfs_config` row with
`visit0 = visitId` exist. -/
def Visit.isPfsConfig0Populated (v : Visit) (db : OpDB) : Bool :=
  db.pfsConfigVisit0.contains v.visitId

/-- The role-polymorphic property `isAvailable`:
`AgVisit`: not active; `FpsVisit`: not (active or populated or
pfsConfig0-populated); `SpsVisit`: constantly `False` ("we actually always
bump up sps after field acquisition"). -/
def Visit.isAvailable (v : Visit) (db : OpDB) : Bool :=
  match v.role with
  | Role.ag => !v.isActive
  | Role.fps => !(v.isActive || v.isPopulated db || v.isPfsConfig0Populated db)
  | Role.sps => false

/-- Modelled from the spec: the external `pfs.datamodel` design object
returned by `PfsDesign.read(pfsDesignId, dirName)`; only the members the
visit subsystem reads are represented (`pfsDesignId`, the arms string). -/
structure PfsDesign where
  pfsDesignId : Nat
  arms : List Char
deriving DecidableEq, Repr

/-- Modelled from the spec: the external `pfs.datamodel` realized
configuration artifact; only the members the visit subsystem reads or
stamps are represented (`pfsDesignId`, `visit`, `visit0`, the
`instStatusFlag` bit mask, plus the header cards and camera mask written by
`copy`, collapsed to numbers). -/
structure PfsConfig where
  pfsDesignId : Nat
  visit : Nat
  visit0 : Nat
  instStatusFlag : Nat
  cards : Nat
  camMask : Nat
deriving DecidableEq, Repr

/-- Modelled from the spec: the `CONVERGENCE_FAILED` bit of the external
`pfs.datamodel.InstrumentStatusFlag` enumeration (the concrete bit value is
irrelevant to the control flow; any fixed non-zero power of two works). -/
def convergenceFailedFlag : Nat := 1

/-- Method `PfsConfig.copy(visit=..., header=..., camMask=..., visit0=...)`: a
per-visit copy of the artifact stamped with the new visit id, caller
metadata, and the base config's visit as `visit0`. -/
def PfsConfig.copy (c : PfsConfig) (visit : Nat) (cards : Nat) (camMask : Nat)
    (visit0 : Nat) : PfsConfig :=
  { c with visit := visit, cards := cards, camMask := camMask, visit0 := visit0 }

/-- The external collaborators of the visit subsystem, as read-only data:
`db` backs the opdb queries, `designOf` backs `PfsDesign.read` (keyed by
design id), `configStore` backs `_findPfsConfigPath` + `PfsConfig.read`
(keyed by design id and visit0; `none` when no file is found in the
scanned date directories), and `fromPfsDesign` backs
`PfsConfig.fromPfsDesign(design, visit, pfiCenter)` (the `pfiCenter`
argument is derived from the design and is dropped here). -/
structure Env where
  db : OpDB
  designOf : Nat → PfsDesign
  configStore : Nat → Nat → Option PfsConfig
  fromPfsDesign : PfsDesign → Nat → PfsConfig

/-- Big-endian hexadecimal digit list of `n`, zero-padded on the left to 16
digits: the embedding of the Python format `'0x%016x' % designId` used by
`PfsField.persist` (the `0x` prefix carries no information and is
dropped). -/
def hexString16 (n : Nat) : List Nat :=
  List.replicate (16 - (Nat.digits 16 n).length) 0 ++ (Nat.digits 16 n).reverse

/-- Value of a big-endian hexadecimal digit list: the embedding of the
Python parse `int(s, 16)` in `PfsField.__init__`. -/
def parseHex (ds : List Nat) : Nat :=
  Nat.ofDigits 16 ds.reverse

/-- The design id argument of `PfsField.__init__`: either the hex string
persisted by `persist` (the `reload` path) or a plain integer (the
`declareNew` path); `__init__` normalizes it with
`int(pfsDesignId, 16) if isinstance(pfsDesignId, str) else pfsDesignId`. -/
inductive DesignIdArg
  | hex (ds : List Nat)
  | int (n : Nat)
deriving DecidableEq, Repr

/-- The normalization performed at the top of `PfsField.__init__`. -/
def DesignIdArg.toNat : DesignIdArg → Nat
  | DesignIdArg.hex ds => parseHex ds
  | DesignIdArg.int n => n

/-- Embedding of class `PfsField` (`pfsField.py`).  The `self.visit` dict
with its fixed keys `ag`, `fps`, `sps` becomes three fields; `iicActor`
and `logger` carry no state the claims touch. -/
structure PfsField where
  visitAg : Visit
  visitFps : Visit
  visitSps : Visit
  pfsDesign : PfsDesign
  pfsConfig0 : Option PfsConfig
deriving DecidableEq, Repr

/-- The `self.visit[caller]` dictionary lookup. -/
def PfsField.visit (f : PfsField) (caller : Role) : Visit :=
  match caller with
  | Role.ag => f.visitAg
  | Role.fps => f.visitFps
  | Role.sps => f.visitSps

/-- The `self.visit[caller] = newVisit` dictionary update. -/
def PfsField.setVisit (f : PfsField) (caller : Role) (newVisit : Visit) : PfsField :=
  match caller with
  | Role.ag => { f with visitAg := newVisit }
  | Role.fps => { f with visitFps := newVisit }
  | Role.sps => { f with visitSps := newVisit }

/-- Property `PfsField.fpsVisitId`. -/
def PfsField.fpsVisitId (f : PfsField) : Nat := f.visitFps.visitId

/-- Property `PfsField.visit0`:
`None if self.pfsConfig0 is None else self.pfsConfig0.visit0`. -/
def PfsField.visit0 (f : PfsField) : Option Nat :=
  f.pfsConfig0.map PfsConfig.visit0

/-- Property `PfsField.pfsDesignId`. -/
def PfsField.pfsDesignId (f : PfsField) : Nat := f.pfsDesign.pfsDesignId

/-- Property `PfsField.pfsConfigId`:
`None if self.pfsConfig0 is None else self.pfsConfig0.pfsDesignId`. -/
def PfsField.pfsConfigId (f : PfsField) : Option Nat :=
  f.pfsConfig0.map PfsConfig.pfsDesignId

/-- The tuple written by `PfsField.persist` to
`actorData.persistKey('pfsField', ...)`: the design id as a zero-padded
hex string, the three per-role visit ids, then `pfsConfigId` and
`visit0`. -/
structure PersistedField where
  designHex : List Nat
  agV : Nat
  fpsV : Nat
  spsV : Nat
  pfsConfigId : Option Nat
  visit0 : Option Nat
deriving DecidableEq, Repr

/-- Method `PfsField.persist()`: serialize the members to the durable key/value
store (the written tuple is returned; the store itself is outside the
field object). -/
def PfsField.persist (f : PfsField) : PersistedField :=
  { designHex := hexString16 f.pfsDesign.pfsDesignId,
    agV := f.visitAg.visitId,
    fpsV := f.visitFps.visitId,
    spsV := f.visitSps.visitId,
    pfsConfigId := f.pfsConfigId,
    visit0 := f.visit0 }

/-- Method `PfsField.setPfsConfig0(pfsConfig0)`: install (or reset) the realized
config and persist; returns the updated field together with the persisted
tuple. -/
def PfsField.setPfsConfig0 (f : PfsField) (pfsConfig0 : Option PfsConfig) :
    PfsField × PersistedField :=
  let f1 := { f with pfsConfig0 := pfsConfig0 }
  (f1, f1.persist)

/-- Method `PfsField.loadPfsConfig0(designId, visit0, doIgnore, ...)`: look the
artifact up in the dated directory tree (`Env.configStore`); when absent
either no-op (`doIgnore`) or raise `FileNotFoundError`; when present
install it via `setPfsConfig0` (read failures, which Python logs and
swallows, are folded into `configStore` returning `none`). -/
def PfsField.loadPfsConfig0 (env : Env) (f : PfsField) (designId : Nat)
    (visit0 : Nat) (doIgnore : Bool) : Except PyError PfsField :=
  match env.configStore designId visit0 with
  | none =>
      if doIgnore then Except.ok f
      else Except.error PyError.pfsConfig0NotFound
  | some c => Except.ok (f.setPfsConfig0 (some c)).1

/-- Constructor `PfsField.__init__(iicActor, pfsDesignId, agV, fpsV, spsV, pfsConfigId=None, visit0=None)`:
build the three role visits (all named `visit0`), read the design, default
`pfsConfigId` to the design's id and `visit0` to the fps visit id, and if
`visit0` is non-zero opportunistically reload the realized config
(`doIgnore=True`, so the lookup never fails; the error branch below is
unreachable and returns the unmodified field). -/
def PfsField.init (env : Env) (designArg : DesignIdArg) (agV fpsV spsV : Nat)
    (pfsConfigId : Option Nat) (visit0 : Option Nat) : PfsField :=
  let f0 : PfsField :=
    { visitAg := AgVisit agV (some "visit0"),
      visitFps := FpsVisit fpsV (some "visit0"),
      visitSps := SpsVisit spsV (some "visit0"),
      pfsDesign := env.designOf designArg.toNat,
      pfsConfig0 := none }
  let pfsConfigIdV := pfsConfigId.getD f0.pfsDesignId
  let visit0V := visit0.getD f0.fpsVisitId
  if visit0V ≠ 0 then
    match f0.loadPfsConfig0 env pfsConfigIdV visit0V true with
    | Except.ok f1 => f1
    | Except.error _ => f0
  else f0

/-- Classmethod `PfsField.declareNew(iicActor, pfsDesignId, visit0)`: construct a field
whose three role visits all start at `visit0`, then persist it. -/
def PfsField.declareNew (env : Env) (pfsDesignId : Nat) (visit0 : Nat) :
    PfsField × PersistedField :=
  let f := PfsField.init env (DesignIdArg.int pfsDesignId) visit0 visit0 visit0 none none
  (f, f.persist)

/-- Classmethod `PfsField.reload(iicActor)`: reconstruct from the persisted tuple. -/
def PfsField.reload (env : Env) (t : PersistedField) : PfsField :=
  PfsField.init env (DesignIdArg.hex t.designHex) t.agV t.fpsV t.spsV t.pfsConfigId t.visit0

/-- Method `PfsField.getVisit(caller)`. -/
def PfsField.getVisit (f : PfsField) (caller : Role) : Visit :=
  f.visit caller

/-- Method `PfsField.isVisitAvailableFor(caller)`. -/
def PfsField.isVisitAvailableFor (f : PfsField) (db : OpDB) (caller : Role) : Bool :=
  (f.getVisit caller).isAvailable db

/-- Method `PfsField.reconfigure(caller, newVisit)`: rebind the role; replacing
the sps visit additionally forces a fresh `AgVisit` bound to the same new
id ("keep sps and ag in sync"); persist afterwards.  Returns the mutated
field and the tuple written by the final `persist()`. -/
def PfsField.reconfigure (f : PfsField) (caller : Role) (newVisit : Visit) :
    PfsField × PersistedField :=
  let f1 := f.setVisit caller newVisit
  let f2 :=
    if caller = Role.sps then f1.setVisit Role.ag (AgVisit newVisit.visitId none)
    else f1
  (f2, f2.persist)

/-- Method `PfsField.getVisit0()`: the realized config's visit, or
`ValueError` when no realized config is available. -/
def PfsField.getVisit0 (f : PfsField) : Except PyError Nat :=
  match f.pfsConfig0 with
  | none => Except.error PyError.noPfsConfig0Available
  | some c => Except.ok c.visit

/-- Method `PfsField.lockVisit()`: lock all three role visits. -/
def PfsField.lockVisit (f : PfsField) : PfsField :=
  { f with visitAg := f.visitAg.lock, visitFps := f.visitFps.lock,
           visitSps := f.visitSps.lock }

/-- The tail of `PfsField.makePfsConfig` shared by both branches on
`pfsConfig0`: the design-id-mismatch guard, the `CONVERGENCE_FAILED`
guard (both overridable with `forcePfsConfig`), and the final per-visit
`copy`. -/
def PfsField.makePfsConfigFinish (f : PfsField) (c0 : PfsConfig) (visitId : Nat)
    (cards : Nat) (camMask : Nat) (forcePfsConfig : Bool) :
    Except PyError (PfsConfig × PfsField) :=
  if c0.pfsDesignId ≠ f.pfsDesignId ∧ ¬forcePfsConfig then
    Except.error PyError.designMismatch
  else if c0.instStatusFlag &&& convergenceFailedFlag ≠ 0 ∧ ¬forcePfsConfig then
    Except.error PyError.convergenceFailed
  else
    Except.ok (c0.copy visitId cards camMask c0.visit, f)

/-- Method `PfsField.makePfsConfig(visitId, cards, camMask, forcePfsConfig=False)`:
when no realized config exists, either fail (`forcePfsConfig=False`:
`RuntimeError('no pfsConfig0 found ...')`) or synthesize one from the
design, ingest it (external side effect, dropped) and pull the fps visit
forward if it fell behind; then apply the mismatch/convergence guards and
return the per-visit copy.  (The initial `if self.pfsDesign is None` guard
of the Python cannot fire in this embedding because `pfsDesign` is always
set by `__init__`.) -/
def PfsField.makePfsConfig (env : Env) (f : PfsField) (visitId : Nat)
    (cards : Nat) (camMask : Nat) (forcePfsConfig : Bool) :
    Except PyError (PfsConfig × PfsField) :=
  match f.pfsConfig0 with
  | none =>
      if ¬forcePfsConfig then Except.error PyError.noPfsConfig0
      else
        let c := env.fromPfsDesign f.pfsDesign visitId
        let f1 := (f.setPfsConfig0 (some c)).1
        let f2 :=
          if f1.fpsVisitId < c.visit then
            (f1.reconfigure Role.fps (FpsVisit visitId (some "visit0"))).1
          else f1
        PfsField.makePfsConfigFinish f2 c visitId cards camMask forcePfsConfig
  | some c0 =>
      PfsField.makePfsConfigFinish f c0 visitId cards camMask forcePfsConfig

/-- The mutable state of a `VisitManager` together with the external Gen2
sequencer (`fetchVisitFromGen2` hands out fresh globally-unique ids;
`gen2Next` is the next id it will return).  The `activeVisit` and
`activePfsConfig` dicts of `visitManager.py` are never read and are
omitted. -/
structure MState where
  activeField : Option PfsField
  gen2Next : Nat
deriving DecidableEq, Repr

/-- Function `fetchVisitFromGen2(actor, designId=None)` (external sequencer):
return a fresh id and advance the sequencer. -/
def fetchVisitFromGen2 (s : MState) : Nat × MState :=
  (s.gen2Next, { s with gen2Next := s.gen2Next + 1 })

/-- Method `VisitManager.declareNewField(pfsDesignId, genVisit0=True)`: fetch a
fresh `visit0` from the sequencer (or use 0), construct and persist a new
`PfsField`, and — when the previously active field has the same design id —
call `activeField.holdPfsConfig0(self.activeField.pfsConfig0)`.  Class
`PfsField` defines no attribute `holdPfsConfig0` (its method of that
intent is named `setPfsConfig0`), so that call raises `AttributeError`
before `self.activeField` is reassigned.  On success returns
`(pfsDesign, visit0)` and the new state. -/
def VisitManager.declareNewField (env : Env) (s : MState) (pfsDesignId : Nat)
    (genVisit0 : Bool) : Except PyError ((PfsDesign × Option Nat) × MState) :=
  let fetched := if genVisit0 then fetchVisitFromGen2 s else (0, s)
  let s1 := fetched.2
  let activeField := (PfsField.declareNew env pfsDesignId fetched.1).1
  match s1.activeField with
  | some old =>
      if old.pfsDesignId = activeField.pfsDesignId then
        Except.error (PyError.attributeError "holdPfsConfig0")
      else
        Except.ok ((activeField.pfsDesign, activeField.visit0),
                   { s1 with activeField := some activeField })
  | none =>
      Except.ok ((activeField.pfsDesign, activeField.visit0),
                 { s1 with activeField := some activeField })

/-- Method `VisitManager.newVisit(caller, name=None)`: fetch a fresh id and wrap
it for the caller. -/
def VisitManager.newVisit (s : MState) (caller : Role) (name : Option String) :
    Visit × MState :=
  let fetched := fetchVisitFromGen2 s
  (Visit.fromCaller fetched.1 caller name, fetched.2)

/-- Method `VisitManager.getVisit(caller, name=None)`: with an active field,
substitute a freshly minted visit for the role if the current one is
unavailable, then return the field's (possibly new) binding; with no
active field, mint an ad-hoc visit. -/
def VisitManager.getVisit (env : Env) (s : MState) (caller : Role)
    (name : Option String) : Visit × MState :=
  match s.activeField with
  | some f =>
      if f.isVisitAvailableFor env.db caller then
        (f.getVisit caller, s)
      else
        let minted := VisitManager.newVisit s caller name
        let f1 := (f.reconfigure caller minted.1).1
        (f1.getVisit caller, { minted.2 with activeField := some f1 })
  | none => VisitManager.newVisit s caller name

/-- Method `VisitManager.finishField()`: clear the active field (and erase the
persisted record, which lives outside `MState`). -/
def VisitManager.finishField (s : MState) : MState :=
  { s with activeField := none }

/-- The operations a consumer can drive through the exposed API
(`VisitManager.declareNewField/getVisit/finishField`, plus
`lock()/unlock()/stop()` on the role visit objects the manager handed
out, which alias the field's bindings). -/
inductive MOp
  | declareNewField (pfsDesignId : Nat)
  | getVisit (caller : Role)
  | lockVisit (caller : Role)
  | unlockVisit (caller : Role)
  | stopVisit (caller : Role)
  | finishField
deriving DecidableEq, Repr

/-- Apply an in-place mutation to the active field's binding for a role
(no-op without an active field). -/
def MState.mapVisit (s : MState) (caller : Role) (g : Visit → Visit) : MState :=
  match s.activeField with
  | none => s
  | some f => { s with activeField := some (f.setVisit caller (g (f.visit caller))) }

/-- One step of the exposed API.  A `declareNewField` that raises
`AttributeError` leaves `activeField` untouched but has already consumed a
sequencer id. -/
def execOp (env : Env) (s : MState) : MOp → MState
  | MOp.declareNewField d =>
      match VisitManager.declareNewField env s d true with
      | Except.ok r => r.2
      | Except.error _ => { s with gen2Next := s.gen2Next + 1 }
  | MOp.getVisit caller => (VisitManager.getVisit env s caller none).2
  | MOp.lockVisit caller => s.mapVisit caller Visit.lock
  | MOp.unlockVisit caller => s.mapVisit caller Visit.unlock
  | MOp.stopVisit caller => s.mapVisit caller Visit.stop
  | MOp.finishField => VisitManager.finishField s

/-- The manager state at a clean start: no persisted field to reload, the
sequencer about to hand out id 1. -/
def initState : MState :=
  { activeField := none, gen2Next := 1 }

/-- Reachability of a manager state through the exposed API from a clean
start. -/
def Reachable (env : Env) (s : MState) : Prop :=
  ∃ ops : List MOp, s = List.foldl (execOp env) initState ops

/-- The visit object after `n` successful `nextFrameId()` calls (`none`
once a call has failed). -/
def Visit.runCalls (v : Visit) : Nat → Option Visit
  | 0 => some v
  | n + 1 =>
      match Visit.runCalls v n with
      | none => none
      | some w =>
          match w.nextFrameId with
          | Except.ok r => some r.2
          | Except.error _ => none

/-- The outcome of the `n`-th `nextFrameId()` call (0-indexed), provided
the first `n` calls succeeded. -/
def Visit.callResult (v : Visit) (n : Nat) : Option (Except VisitError Nat) :=
  (Visit.runCalls v n).map (fun w => w.nextFrameId.map Prod.fst)

/-- A concrete benign environment for witnesses: empty database, a design
store returning a design with the requested id, an empty config store, and
a synthesis function stamping the design id and visit. -/
def envW : Env :=
  { db := ⟨[], [], [], []⟩,
    designOf := fun d => ⟨d, []⟩,
    configStore := fun _ _ => none,
    fromPfsDesign := fun d v => ⟨d.pfsDesignId, v, v, 0, 0, 0⟩ }

/-- A concrete field for witnesses: design id 171, all three role visits
at id 5, no realized config. -/
def fldA : PfsField :=
  ⟨AgVisit 5 none, FpsVisit 5 none, SpsVisit 5 none, ⟨171, []⟩, none⟩

/-- A concrete realized config whose `visit` (5) and `visit0` (7)
members differ. -/
def cfgB : PfsConfig := ⟨171, 5, 7, 0, 0, 0⟩

/-- A concrete field whose realized config is `cfgB`. -/
def fldB : PfsField :=
  ⟨AgVisit 5 none, FpsVisit 5 none, SpsVisit 5 none, ⟨171, []⟩, some cfgB⟩

/-- A concrete field whose ag visit has been stopped while unlocked. -/
def fldDead : PfsField :=
  ⟨(AgVisit 4 none).stop, FpsVisit 4 none, SpsVisit 4 none, ⟨171, []⟩, none⟩

/-- Applying `Nat.ofDigits` to a block of zero digits is zero. -/
theorem ofDigits_replicate_zero (b k : Nat) :
    Nat.ofDigits b (List.replicate k 0) = 0 := by
  induction k with
  | zero => simp [Nat.ofDigits]
  | succ k ih => simp [List.replicate_succ, Nat.ofDigits_cons, ih]

/-- Formatting a design id as a zero-padded hex string and parsing it back
is the identity. -/
theorem parseHex_hexString16 (n : Nat) : parseHex (hexString16 n) = n := by
  unfold parseHex hexString16
  rw [List.reverse_append, List.reverse_reverse, List.reverse_replicate]
  rw [Nat.ofDigits_append, Nat.ofDigits_digits, ofDigits_replicate_zero]
  simp

/-- On a live visit, `n` successful calls advance the private frame
counter to exactly `n`, for any `n ≤ 100`. -/
theorem Visit.runCalls_live (role : Role) (vid : Nat) (name : Option String)
    (act : Bool) :
    ∀ i, i ≤ 100 →
      Visit.runCalls ⟨role, vid, name, act, false, 0⟩ i =
        some ⟨role, vid, name, act, false, i⟩ := by
  intro i
  induction i with
  | zero => intro _; rfl
  | succ n ih =>
      intro h
      have hn : n ≤ 100 := Nat.le_of_succ_le h
      have hlt : ¬(n ≥ 100) := Nat.not_le.mpr (Nat.lt_of_succ_le h)
      simp only [Visit.runCalls, ih hn, Visit.nextFrameId]
      simp [hlt]

/-- C1: for every Visit constructed with a positive `visitId` and never
stopped, the first 100 `nextFrameId()` calls succeed and return the
strictly increasing values `visitId*100+i` for `i = 0..99` (each call
returns `visitId*100` plus the pre-increment counter value), and the call
made once the internal counter has reached 100 raises `VisitOverflowed`. -/
theorem nextFrameId_first100_then_overflow (role : Role) (vid : Nat)
    (name : Option String) (act : Bool) (hpos : 0 < vid) :
    (∀ i, i < 100 →
        Visit.callResult ⟨role, vid, name, act, false, 0⟩ i =
          some (Except.ok (vid * 100 + i))) ∧
    (∀ i j, i < j → j < 100 → vid * 100 + i < vid * 100 + j) ∧
    Visit.callResult ⟨role, vid, name, act, false, 0⟩ 100 =
      some (Except.error VisitError.visitOverflowed) := by
  refine ⟨?_, ?_, ?_⟩
  · intro i hi
    have h1 := Visit.runCalls_live role vid name act i (Nat.le_of_lt hi)
    have hlt : ¬(i ≥ 100) := Nat.not_le.mpr hi
    simp only [Visit.callResult, h1, Option.map_some, Visit.nextFrameId]
    simp [hlt, Except.map]
  · intro i j hij _
    exact Nat.add_lt_add_left hij _
  · have h1 := Visit.runCalls_live role vid name act 100 (Nat.le_refl 100)
    simp only [Visit.callResult, h1, Option.map_some, Visit.nextFrameId]
    simp [Except.map]

/-- Witness for C1: the theorem applied to a concrete live visit with
`visitId = 3`, checked at the first call, the last succeeding call and the
overflowing call. -/
theorem nextFrameId_first100_then_overflow_witness :
    0 < 3 ∧
    Visit.callResult ⟨Role.ag, 3, none, false, false, 0⟩ 0 =
      some (Except.ok 300) ∧
    Visit.callResult ⟨Role.ag, 3, none, false, false, 0⟩ 99 =
      some (Except.ok 399) ∧
    Visit.callResult ⟨Role.ag, 3, none, false, false, 0⟩ 100 =
      some (Except.error VisitError.visitOverflowed) :=
  ⟨by decide,
   (nextFrameId_first100_then_overflow Role.ag 3 none false (by decide)).1 0 (by decide),
   (nextFrameId_first100_then_overflow Role.ag 3 none false (by decide)).1 99 (by decide),
   (nextFrameId_first100_then_overflow Role.ag 3 none false (by decide)).2.2⟩

/-- C7: an fps-role visit is available exactly when it is not active, no
exposure row for its `visitId` exists in its exposure table
(`mcs_exposure`), and no `pfs_config` row has `visit0` equal to its
`visitId`; in particular availability fails whenever such a row exists,
even if the visit was never locked. -/
theorem fpsVisit_isAvailable_iff (db : OpDB) (v : Visit) (h : v.role = Role.fps) :
    (v.isAvailable db = true ↔
      (v.isActive = false ∧ v.visitId ∉ db.mcsExposure ∧
        v.visitId ∉ db.pfsConfigVisit0)) ∧
    (v.visitId ∈ db.mcsExposure → v.isAvailable db = false) ∧
    (v.visitId ∈ db.pfsConfigVisit0 → v.isAvailable db = false) := by
  constructor
  · simp [Visit.isAvailable, h, Visit.isPopulated, Visit.isPfsConfig0Populated,
      OpDB.exposureRows, List.contains, List.elem_iff, not_or, and_assoc]
  · constructor
    · intro hm
      simp [Visit.isAvailable, h, Visit.isPopulated, OpDB.exposureRows,
        List.contains, List.elem_iff, hm]
    · intro hm
      simp [Visit.isAvailable, h, Visit.isPfsConfig0Populated,
        List.contains, List.elem_iff, hm]

/-- Witness for C7: a concrete unlocked fps visit whose id is recorded in
the `pfs_config.visit0` column but in no exposure table is unavailable,
by the theorem. -/
theorem fpsVisit_isAvailable_iff_witness :
    (FpsVisit 7 none).isAvailable ⟨[], [], [], [7]⟩ = false :=
  (fpsVisit_isAvailable_iff ⟨[], [], [], [7]⟩ (FpsVisit 7 none) rfl).2.2
    (by decide)

/-- C6: for every PfsField and Visit, `reconfigure('sps', newVisit)` binds
the sps role to `newVisit`, also replaces the ag role's Visit with a fresh
`AgVisit` (unlocked, live, frame counter 0) whose `visitId` equals
`newVisit.visitId`, and afterwards persists the field — the written tuple
is the persisted form of the mutated field and carries the new id in both
its sps and ag slots. -/
theorem reconfigure_sps_syncs_ag (f : PfsField) (newVisit : Visit) :
    (f.reconfigure Role.sps newVisit).1.visitSps = newVisit ∧
    (f.reconfigure Role.sps newVisit).1.visitAg = AgVisit newVisit.visitId none ∧
    (f.reconfigure Role.sps newVisit).1.visitAg.visitId = newVisit.visitId ∧
    (f.reconfigure Role.sps newVisit).1.visitAg.iAmDead = false ∧
    (f.reconfigure Role.sps newVisit).1.visitAg.isActive = false ∧
    (f.reconfigure Role.sps newVisit).1.visitAg.frameId = 0 ∧
    (f.reconfigure Role.sps newVisit).2 = (f.reconfigure Role.sps newVisit).1.persist ∧
    (f.reconfigure Role.sps newVisit).2.spsV = newVisit.visitId ∧
    (f.reconfigure Role.sps newVisit).2.agV = newVisit.visitId := by
  refine ⟨rfl, rfl, rfl, rfl, rfl, rfl, rfl, rfl, rfl⟩

/-- C10: for every PfsField and Visit, reconfiguring the ag or the fps
role leaves the design and the realized config unchanged, and touches no
role binding other than the reconfigured one (only the sps case
additionally touches the ag binding). -/
theorem reconfigure_ag_fps_frame (f : PfsField) (newVisit : Visit) (r : Role)
    (h : r = Role.ag ∨ r = Role.fps) :
    (f.reconfigure r newVisit).1.pfsDesign = f.pfsDesign ∧
    (f.reconfigure r newVisit).1.pfsConfig0 = f.pfsConfig0 ∧
    (r = Role.ag →
      (f.reconfigure r newVisit).1.visitFps = f.visitFps ∧
      (f.reconfigure r newVisit).1.visitSps = f.visitSps) ∧
    (r = Role.fps →
      (f.reconfigure r newVisit).1.visitAg = f.visitAg ∧
      (f.reconfigure r newVisit).1.visitSps = f.visitSps) := by
  rcases h with h | h <;> subst h
  · exact ⟨rfl, rfl, ⟨fun _ => ⟨rfl, rfl⟩, fun h => Role.noConfusion h⟩⟩
  · exact ⟨rfl, rfl, ⟨fun h => Role.noConfusion h, fun _ => ⟨rfl, rfl⟩⟩⟩

/-- Witness for C10: reconfiguring the fps role of a concrete field at a
new fps visit with id 8 preserves the ag and sps bindings, the design and
the config. -/
theorem reconfigure_ag_fps_frame_witness :
    (Role.fps = Role.ag ∨ Role.fps = Role.fps) ∧
    ((fldA.reconfigure Role.fps (FpsVisit 8 none)).1.pfsDesign = fldA.pfsDesign ∧
     (fldA.reconfigure Role.fps (FpsVisit 8 none)).1.pfsConfig0 = fldA.pfsConfig0 ∧
     (Role.fps = Role.ag →
       (fldA.reconfigure Role.fps (FpsVisit 8 none)).1.visitFps = fldA.visitFps ∧
       (fldA.reconfigure Role.fps (FpsVisit 8 none)).1.visitSps = fldA.visitSps) ∧
     (Role.fps = Role.fps →
       (fldA.reconfigure Role.fps (FpsVisit 8 none)).1.visitAg = fldA.visitAg ∧
       (fldA.reconfigure Role.fps (FpsVisit 8 none)).1.visitSps = fldA.visitSps)) :=
  ⟨Or.inr rfl,
   reconfigure_ag_fps_frame fldA (FpsVisit 8 none) Role.fps (Or.inr rfl)⟩

/-- C8: for every PfsField whose realized config is absent,
`makePfsConfig(visitId, cards, camMask, forcePfsConfig=False)` raises the
"no pfsConfig0 found for the current PfsDesign" error (and in particular
returns no synthesized config). -/
theorem makePfsConfig_noConfig0_raises (env : Env) (f : PfsField)
    (visitId cards camMask : Nat) (h : f.pfsConfig0 = none) :
    PfsField.makePfsConfig env f visitId cards camMask false =
      Except.error PyError.noPfsConfig0 := by
  unfold PfsField.makePfsConfig
  rw [h]
  rfl

/-- Witness for C8: the theorem applied to the concrete config-less field
`fldA`. -/
theorem makePfsConfig_noConfig0_raises_witness :
    fldA.pfsConfig0 = none ∧
    PfsField.makePfsConfig envW fldA 9 0 0 false =
      Except.error PyError.noPfsConfig0 :=
  ⟨rfl, makePfsConfig_noConfig0_raises envW fldA 9 0 0 rfl⟩

/-- C4 as stated is false on the code: for the config-less field `fldA`
(fps visit id 5) the `visit0` property is `None`, not the fps visit id;
and for `fldB`, whose realized config has `visit = 5` but `visit0 = 7`,
the property returns the config's `visit0` member (7), not its `visit`
member (5). -/
theorem visit0_claim_counterexample :
    fldA.pfsConfig0 = none ∧
    fldA.fpsVisitId = 5 ∧
    fldA.visit0 ≠ some fldA.fpsVisitId ∧
    fldB.pfsConfig0 = some cfgB ∧
    cfgB.visit = 5 ∧
    fldB.visit0 ≠ some cfgB.visit ∧
    fldB.visit0 = some 7 := by
  refine ⟨rfl, rfl, by decide, rfl, rfl, by decide, rfl⟩

/-- C4 amended: for every PfsField, the `visit0` property equals the
realized config's `visit0` member when `pfsConfig0` is loaded and is
`None` otherwise; the fps-visit fallback and the config's `visit` member
belong to `getVisit0()`, which returns `pfsConfig0.visit` when loaded and
raises `ValueError` otherwise. -/
theorem visit0_follows_config0 (f : PfsField) :
    (∀ c, f.pfsConfig0 = some c →
       f.visit0 = some c.visit0 ∧ f.getVisit0 = Except.ok c.visit) ∧
    (f.pfsConfig0 = none →
       f.visit0 = none ∧
       f.getVisit0 = Except.error PyError.noPfsConfig0Available) := by
  constructor
  · intro c hc
    constructor
    · simp [PfsField.visit0, hc]
    · simp [PfsField.getVisit0, hc]
  · intro hc
    constructor
    · simp [PfsField.visit0, hc]
    · simp [PfsField.getVisit0, hc]

/-- Witness for the amended C4: on `fldB` the property yields the config's
`visit0` (7) while `getVisit0()` yields its `visit` (5). -/
theorem visit0_follows_config0_witness :
    fldB.visit0 = some cfgB.visit0 ∧ fldB.getVisit0 = Except.ok cfgB.visit :=
  (visit0_follows_config0 fldB).1 cfgB rfl

/-- With `doIgnore=True`, `loadPfsConfig0` never fails: it returns the
field updated with the found artifact, or the field unchanged when the
store has none. -/
theorem loadPfsConfig0_ignore (env : Env) (f : PfsField) (designId visit0 : Nat) :
    PfsField.loadPfsConfig0 env f designId visit0 true =
      Except.ok
        (match env.configStore designId visit0 with
         | none => f
         | some c => { f with pfsConfig0 := some c }) := by
  unfold PfsField.loadPfsConfig0 PfsField.setPfsConfig0
  cases env.configStore designId visit0 <;> simp

/-- Constructor `PfsField.__init__` always yields the design read for the (normalized)
design id argument and the three freshly constructed role visits; the
opportunistic config reload touches only `pfsConfig0`. -/
theorem init_projections (env : Env) (designArg : DesignIdArg)
    (agV fpsV spsV : Nat) (pc v0 : Option Nat) :
    (PfsField.init env designArg agV fpsV spsV pc v0).pfsDesign =
        env.designOf designArg.toNat ∧
    (PfsField.init env designArg agV fpsV spsV pc v0).visitAg =
        AgVisit agV (some "visit0") ∧
    (PfsField.init env designArg agV fpsV spsV pc v0).visitFps =
        FpsVisit fpsV (some "visit0") ∧
    (PfsField.init env designArg agV fpsV spsV pc v0).visitSps =
        SpsVisit spsV (some "visit0") := by
  unfold PfsField.init
  simp only [loadPfsConfig0_ignore]
  split
  · split <;> simp
  · simp

/-- C5: for every PfsField (over a design store that returns designs under
their requested id, as `PfsDesign.read` does), persisting and then
reloading from the persisted tuple reconstructs a field with the same
`pfsDesignId` and the same per-role visit ids. -/
theorem persist_reload_roundtrip (env : Env) (f : PfsField)
    (hd : ∀ d, (env.designOf d).pfsDesignId = d) :
    (PfsField.reload env f.persist).pfsDesignId = f.pfsDesignId ∧
    (PfsField.reload env f.persist).visitAg.visitId = f.visitAg.visitId ∧
    (PfsField.reload env f.persist).visitFps.visitId = f.visitFps.visitId ∧
    (PfsField.reload env f.persist).visitSps.visitId = f.visitSps.visitId := by
  have hre : PfsField.reload env f.persist =
      PfsField.init env (DesignIdArg.hex (hexString16 f.pfsDesign.pfsDesignId))
        f.visitAg.visitId f.visitFps.visitId f.visitSps.visitId
        f.pfsConfigId f.visit0 := rfl
  obtain ⟨h1, h2, h3, h4⟩ := init_projections env
    (DesignIdArg.hex (hexString16 f.pfsDesign.pfsDesignId))
    f.visitAg.visitId f.visitFps.visitId f.visitSps.visitId
    f.pfsConfigId f.visit0
  rw [hre]
  refine ⟨?_, ?_, ?_, ?_⟩
  · simp only [PfsField.pfsDesignId, h1, DesignIdArg.toNat, hd,
      parseHex_hexString16]
  · simp only [h2, AgVisit]
  · simp only [h3, FpsVisit]
  · simp only [h4, SpsVisit]

/-- Witness for C5: the round trip applied to the concrete field `fldB`
over the benign environment `envW`, whose design store is honest. -/
theorem persist_reload_roundtrip_witness :
    (PfsField.reload envW fldB.persist).pfsDesignId = fldB.pfsDesignId ∧
    (PfsField.reload envW fldB.persist).visitAg.visitId = fldB.visitAg.visitId ∧
    (PfsField.reload envW fldB.persist).visitFps.visitId = fldB.visitFps.visitId ∧
    (PfsField.reload envW fldB.persist).visitSps.visitId = fldB.visitSps.visitId :=
  persist_reload_roundtrip envW fldB (fun _ => rfl)

/-- C3 evaluated at its failing input: with an active field of design id
171, re-declaring design id 171 does not carry the realized config
forward — the call `activeField.holdPfsConfig0(...)` raises
`AttributeError` because class `PfsField` defines no method of that name
(only `setPfsConfig0`). -/
theorem declareNewField_same_design_attributeError :
    VisitManager.declareNewField envW
        { activeField := some fldB, gen2Next := 6 } 171 true =
      Except.error (PyError.attributeError "holdPfsConfig0") := by
  rfl

/-- C2 as stated is false on the code: from a clean start, declaring a
field and then stopping its (unlocked) ag visit reaches a manager state
with an active field in which `getVisit('ag')` returns a visit whose
`iAmDead` flag is set — even though, being unlocked, that dead visit still
counts as available. -/
theorem getVisit_claim_counterexample :
    Reachable envW (List.foldl (execOp envW) initState
        [MOp.declareNewField 171, MOp.stopVisit Role.ag]) ∧
    (List.foldl (execOp envW) initState
        [MOp.declareNewField 171, MOp.stopVisit Role.ag]).activeField.isSome = true ∧
    (VisitManager.getVisit envW
        (List.foldl (execOp envW) initState
          [MOp.declareNewField 171, MOp.stopVisit Role.ag]) Role.ag none).1.iAmDead
      = true ∧
    ((VisitManager.getVisit envW
        (List.foldl (execOp envW) initState
          [MOp.declareNewField 171, MOp.stopVisit Role.ag]) Role.ag none).1.isAvailable
        envW.db) = true := by
  exact ⟨⟨[MOp.declareNewField 171, MOp.stopVisit Role.ag], rfl⟩, rfl, rfl, rfl⟩

/-- After `reconfigure(caller, v)` the field's binding for `caller` is
`v` (the sps case additionally rebinds ag, which does not disturb the sps
slot). -/
theorem reconfigure_getVisit_self (f : PfsField) (caller : Role) (v : Visit) :
    ((f.reconfigure caller v).1).getVisit caller = v := by
  cases caller <;> rfl

/-- C2 amended: with an active field, `getVisit(role)` returns the field's
binding for the role after the call: the pre-call binding unchanged when
its availability predicate held (such a binding can still be dead, since
ag availability never consults the dead flag), and otherwise a freshly
minted live visit from the sequencer — which is returned even when, as
always for sps, the fresh visit is itself not available. -/
theorem getVisit_returns_current_or_fresh (env : Env) (s : MState)
    (f : PfsField) (caller : Role) (name : Option String)
    (hs : s.activeField = some f) :
    (f.isVisitAvailableFor env.db caller = true →
       (VisitManager.getVisit env s caller name).1 = f.getVisit caller ∧
       (VisitManager.getVisit env s caller name).2 = s) ∧
    (f.isVisitAvailableFor env.db caller = false →
       (VisitManager.getVisit env s caller name).1 =
         Visit.fromCaller s.gen2Next caller name ∧
       (VisitManager.getVisit env s caller name).1.iAmDead = false ∧
       (VisitManager.getVisit env s caller name).1.frameId = 0 ∧
       (VisitManager.getVisit env s caller name).2.gen2Next = s.gen2Next + 1) := by
  constructor
  · intro hav
    unfold VisitManager.getVisit
    rw [hs]
    simp [hav]
  · intro hav
    unfold VisitManager.getVisit
    rw [hs]
    simp only [hav, Bool.false_eq_true, if_false]
    refine ⟨?_, ?_, ?_, ?_⟩
    · exact reconfigure_getVisit_self f caller _
    · rw [reconfigure_getVisit_self f caller _]
      cases caller <;> rfl
    · rw [reconfigure_getVisit_self f caller _]
      cases caller <;> rfl
    · rfl

/-- Witness for the amended C2: on a concrete state whose field has an
available (unlocked) ag visit, `getVisit('ag')` hands back that binding
and leaves the state unchanged. -/
theorem getVisit_returns_current_or_fresh_witness :
    (({ activeField := some fldA, gen2Next := 9 } : MState).activeField
        = some fldA) ∧
    fldA.isVisitAvailableFor envW.db Role.ag = true ∧
    (VisitManager.getVisit envW { activeField := some fldA, gen2Next := 9 }
        Role.ag none).1 = fldA.getVisit Role.ag ∧
    (VisitManager.getVisit envW { activeField := some fldA, gen2Next := 9 }
        Role.ag none).2 = { activeField := some fldA, gen2Next := 9 } := by
  refine ⟨rfl, rfl, ?_⟩
  exact (getVisit_returns_current_or_fresh envW
    { activeField := some fldA, gen2Next := 9 } fldA Role.ag none rfl).1 rfl

/-- C9: stopping an ag visit does not make it unavailable — ag
availability never consults the dead flag — so a field whose ag binding is
a stopped-but-unlocked visit hands exactly that dead visit back from
`getVisit('ag')`, unchanged, without touching the state. -/
theorem deadUnlockedAg_handed_back (env : Env) (s : MState) (f : PfsField)
    (v : Visit) (hrole : v.role = Role.ag) (hact : v.isActive = false)
    (hs : s.activeField = some f) (hag : f.visitAg = v.stop) :
    v.stop.iAmDead = true ∧
    v.stop.isAvailable env.db = true ∧
    (VisitManager.getVisit env s Role.ag none).1 = v.stop ∧
    (VisitManager.getVisit env s Role.ag none).2 = s := by
  have hava : v.stop.isAvailable env.db = true := by
    simp [Visit.stop, Visit.isAvailable, hrole, hact]
  have havf : f.isVisitAvailableFor env.db Role.ag = true := by
    unfold PfsField.isVisitAvailableFor PfsField.getVisit PfsField.visit
    rw [hag]
    exact hava
  refine ⟨rfl, hava, ?_, ?_⟩
  · unfold VisitManager.getVisit
    rw [hs]
    simp only [havf, if_true]
    exact hag
  · unfold VisitManager.getVisit
    rw [hs]
    simp only [havf, if_true]

/-- Witness for C9: the concrete field `fldDead`, whose ag binding is the
stopped, unlocked visit `(AgVisit 4 none).stop`, hands that dead visit
back. -/
theorem deadUnlockedAg_handed_back_witness :
    (AgVisit 4 none).stop.iAmDead = true ∧
    (AgVisit 4 none).stop.isAvailable envW.db = true ∧
    (VisitManager.getVisit envW { activeField := some fldDead, gen2Next := 9 }
        Role.ag none).1 = (AgVisit 4 none).stop ∧
    (VisitManager.getVisit envW { activeField := some fldDead, gen2Next := 9 }
        Role.ag none).2 = { activeField := some fldDead, gen2Next := 9 } :=
  deadUnlockedAg_handed_back envW { activeField := some fldDead, gen2Next := 9 }
    fldDead (AgVisit 4 none) rfl rfl rfl rfl

end IcsVisit
